import Mathlib

/-!
Verification of the environment configuration module
`src/Project/03_coffee_shop_full_stack/starter_code/frontend/src/environments/environment.ts`.

The module exports a single constant object literal.  We embed it as a Lean
structure mirroring the TypeScript object, together with a shallow JSON value
model (the object is at most two levels deep, so a two-level JSON model is
exact) used to state shape, serialization and field-access properties.
-/

namespace CoffeeShopEnv

/-- The nested `auth0` record of the exported `environment` object. -/
structure Auth0Config where
  url : String
  audience : String
  clientId : String
  callbackURL : String
deriving DecidableEq

/-- The type of the exported `environment` object: its three top-level
properties, in source order. -/
structure Environment where
  production : Bool
  apiServerUrl : String
  auth0 : Auth0Config
deriving DecidableEq

/-- The exported constant `environment` from `environment.ts`, field for field. -/
def environment : Environment :=
  { production := false
    apiServerUrl := "http://127.0.0.1:5000"
    auth0 :=
      { url := "dev-ya94ppfc.us"
        audience := "drinks"
        clientId := "Vna6pHZHZ9P1dvOeq6POJ2WB8lBsfY8G"
        callbackURL := "http://localhost:8100" } }

/-! ## A shallow JSON model

The object literal contains only booleans, strings and one nested object of
scalars, so JSON values of depth at most two model it exactly. -/

/-- A scalar JSON value: the only scalar kinds occurring in the module. -/
inductive JScalar where
  | jbool (b : Bool)
  | jstr (s : String)
deriving DecidableEq

/-- A JSON field value of the top-level object: a scalar or a nested object
of scalars. -/
inductive JField where
  | scalar (v : JScalar)
  | obj (fields : List (String × JScalar))
deriving DecidableEq

/-- A JSON object: an ordered association list of named fields. -/
abbrev JObject := List (String × JField)

/-- Serialization of the configuration record to JSON, fields in source
order (the order `JSON.stringify` would emit for this literal). -/
def Environment.toJson (e : Environment) : JObject :=
  [ ("production", JField.scalar (JScalar.jbool e.production)),
    ("apiServerUrl", JField.scalar (JScalar.jstr e.apiServerUrl)),
    ("auth0", JField.obj
      [ ("url", JScalar.jstr e.auth0.url),
        ("audience", JScalar.jstr e.auth0.audience),
        ("clientId", JScalar.jstr e.auth0.clientId),
        ("callbackURL", JScalar.jstr e.auth0.callbackURL) ]) ]

/-- Deserialization of a JSON object back to a configuration record:
each declared field is looked up by name and must carry the declared type. -/
def Environment.fromJson (j : JObject) : Option Environment :=
  match List.lookup "production" j, List.lookup "apiServerUrl" j,
        List.lookup "auth0" j with
  | some (JField.scalar (JScalar.jbool p)),
    some (JField.scalar (JScalar.jstr api)),
    some (JField.obj a) =>
    match List.lookup "url" a, List.lookup "audience" a,
          List.lookup "clientId" a, List.lookup "callbackURL" a with
    | some (JScalar.jstr u), some (JScalar.jstr au),
      some (JScalar.jstr ci), some (JScalar.jstr cb) =>
      some { production := p, apiServerUrl := api,
             auth0 := { url := u, audience := au,
                        clientId := ci, callbackURL := cb } }
    | _, _, _, _ => none
  | _, _, _ => none

/-! ## Shapes: field names and field types -/

/-- The type of a scalar field. -/
inductive ScalarType where
  | boolean
  | string
deriving DecidableEq

/-- The type of a field of the top-level object: a scalar type or a nested
record type given by its own named scalar fields. -/
inductive FieldType where
  | scalar (t : ScalarType)
  | record (fields : List (String × ScalarType))
deriving DecidableEq

/-- The scalar type of a scalar JSON value. -/
def JScalar.typeOf : JScalar → ScalarType
  | JScalar.jbool _ => ScalarType.boolean
  | JScalar.jstr _ => ScalarType.string

/-- The field type of a JSON field value. -/
def JField.typeOf : JField → FieldType
  | JField.scalar v => FieldType.scalar v.typeOf
  | JField.obj fs => FieldType.record (fs.map (fun p => (p.1, p.2.typeOf)))

/-- The shape of a JSON object: its field names with their field types,
in order, forgetting the values. -/
def shapeOf (j : JObject) : List (String × FieldType) :=
  j.map (fun p => (p.1, p.2.typeOf))

/-- The field list of the data model in the spec: `production` boolean,
`apiServerUrl` string, and a nested `auth0` record of four string fields
`url`, `audience`, `clientId`, `callbackURL`.  Stated from the spec's words,
to be compared with the shape of the code's record. -/
def specShape : List (String × FieldType) :=
  [ ("production", FieldType.scalar ScalarType.boolean),
    ("apiServerUrl", FieldType.scalar ScalarType.string),
    ("auth0", FieldType.record
      [ ("url", ScalarType.string),
        ("audience", ScalarType.string),
        ("clientId", ScalarType.string),
        ("callbackURL", ScalarType.string) ]) ]

/-- Number of scalar (non-record) fields of a JSON object. -/
def topScalarCount (j : JObject) : Nat :=
  (j.filter (fun p => match p.2 with
    | JField.scalar _ => true
    | JField.obj _ => false)).length

/-- Number of nested-record fields of a JSON object. -/
def topRecordCount (j : JObject) : Nat :=
  (j.filter (fun p => match p.2 with
    | JField.scalar _ => false
    | JField.obj _ => true)).length

/-- The sizes of the nested records of a JSON object, in order. -/
def nestedScalarCounts (j : JObject) : List Nat :=
  j.filterMap (fun p => match p.2 with
    | JField.scalar _ => none
    | JField.obj fs => some fs.length)

/-! ## Strings of the record -/

/-- All string scalar values of a JSON object, top-level and nested, in order. -/
def stringScalars (j : JObject) : List String :=
  j.flatMap (fun p => match p.2 with
    | JField.scalar (JScalar.jstr s) => [s]
    | JField.scalar (JScalar.jbool _) => []
    | JField.obj fs => fs.filterMap (fun q => match q.2 with
        | JScalar.jstr s => some s
        | JScalar.jbool _ => none))

/-- The top-level scalar fields of a JSON object whose type is not `string`. -/
def nonStringTopFields (j : JObject) : List (String × ScalarType) :=
  j.filterMap (fun p => match p.2 with
    | JField.scalar v =>
      if v.typeOf != ScalarType.string then some (p.1, v.typeOf) else none
    | JField.obj _ => none)

/-- The nested fields of a JSON object whose type is not `string`. -/
def nestedNonStringFields (j : JObject) : List (String × ScalarType) :=
  j.flatMap (fun p => match p.2 with
    | JField.obj fs =>
      (fs.map (fun q => (q.1, q.2.typeOf))).filter
        (fun q => q.2 != ScalarType.string)
    | JField.scalar _ => [])

/-! ## URL syntax

The repository contains no URL-handling code; the checker below is the only
definition written from the spec rather than from the source. -/

/-- Split a character list at the first occurrence of the sequence `://`,
returning the part before (the scheme candidate) and the part after. -/
def splitScheme : List Char → Option (List Char × List Char)
  | [] => none
  | ':' :: '/' :: '/' :: rest => some ([], rest)
  | c :: rest =>
    match splitScheme rest with
    | some (pre, post) => some (c :: pre, post)
    | none => none

/-- The host portion of what follows `://`: the characters up to the first
`:` (port) or `/` (path). -/
def hostChars (cs : List Char) : List Char :=
  cs.takeWhile (fun c => c != ':' && c != '/')

/-- Modelled from the spec: the repository has no URL validator, and the
testable property "`apiServerUrl` and `callbackURL` must be syntactically
valid URLs" is read as parsing as an absolute URL.  The scheme of a string,
if it parses as `scheme://...` with a non-empty alphabetic scheme. -/
def urlScheme (s : String) : Option String :=
  match splitScheme s.data with
  | some (pre, _) =>
    if pre.isEmpty then none
    else if pre.all Char.isAlpha then some (String.mk pre) else none
  | none => none

/-- Modelled from the spec: the host of a string that parses as
`scheme://host...`, if non-empty. -/
def urlHost (s : String) : Option String :=
  match splitScheme s.data with
  | some (_, post) =>
    if (hostChars post).isEmpty then none else some (String.mk (hostChars post))
  | none => none

/-- Modelled from the spec: a string is a syntactically valid absolute URL
when it parses with a scheme and a host. -/
def isAbsoluteUrl (s : String) : Bool :=
  (urlScheme s).isSome && (urlHost s).isSome

/-- A host name referring to the local machine: `localhost` or a loopback
address in `127.0.0.0/8`. -/
def isLoopbackOrLocalHost (h : String) : Bool :=
  h == "localhost" ||
    (match h.data with
     | '1' :: '2' :: '7' :: '.' :: _ => true
     | _ => false)

/-! ## The module's runtime interface

The module exports one constant and defines no function; the only operations
its consumers can perform through it are field reads.  We model the process
lifetime after module load as a sequence of such reads acting on the record. -/

/-- The read operations the module's export supports: one per declared field. -/
inductive ReadOp where
  | readProduction
  | readApiServerUrl
  | readAuth0Url
  | readAuth0Audience
  | readAuth0ClientId
  | readAuth0CallbackURL
deriving DecidableEq

/-- Reading a field of the record: total, returns the field's value. -/
def readField (e : Environment) : ReadOp → JScalar
  | ReadOp.readProduction => JScalar.jbool e.production
  | ReadOp.readApiServerUrl => JScalar.jstr e.apiServerUrl
  | ReadOp.readAuth0Url => JScalar.jstr e.auth0.url
  | ReadOp.readAuth0Audience => JScalar.jstr e.auth0.audience
  | ReadOp.readAuth0ClientId => JScalar.jstr e.auth0.clientId
  | ReadOp.readAuth0CallbackURL => JScalar.jstr e.auth0.callbackURL

/-- One step of the module interface: a read returns the field's value and
the record after the step.  The module defines no mutating operation, so the
record after a read is the record itself. -/
def step (e : Environment) (op : ReadOp) : Environment × JScalar :=
  (e, readField e op)

/-- The record after a sequence of interface operations starting from `e`. -/
def runReads (e : Environment) : List ReadOp → Environment
  | [] => e
  | op :: ops => runReads (step e op).1 ops

lemma runReads_eq (e : Environment) (ops : List ReadOp) : runReads e ops = e := by
  induction ops with
  | nil => rfl
  | cons op ops ih => simpa [runReads, step] using ih

/-! ## The claims -/

/-- Claim C1: the exported configuration record exposes exactly the fields
listed in the data model with the specified types — `production` boolean,
`apiServerUrl` string, and a nested `auth0` record whose `url`, `audience`,
`clientId` and `callbackURL` are strings; no field is missing and none is
extra. -/
theorem environment_shape_matches_spec :
    shapeOf environment.toJson = specShape := by decide

/-- Claim C2, counterexample: the top-level configuration record does not
contain five scalar fields — its scalar-field count is not `5`. -/
theorem topLevel_scalar_count_not_five :
    (topScalarCount environment.toJson == 5) = false := by decide

/-- Claim C2, amended: the top-level configuration record is a single flat
record containing two scalar fields plus one nested record, and the nested
record contains four further scalar fields. -/
theorem topLevel_field_counts :
    topScalarCount environment.toJson = 2 ∧
    topRecordCount environment.toJson = 1 ∧
    nestedScalarCounts environment.toJson = [4] := by decide

/-- Claim C3: every string-typed field of the configuration record is
present with a non-empty value, and the only non-string field is the
boolean `production`. -/
theorem string_fields_nonEmpty_only_production_boolean :
    stringScalars environment.toJson =
      [ environment.apiServerUrl, environment.auth0.url,
        environment.auth0.audience, environment.auth0.clientId,
        environment.auth0.callbackURL ] ∧
    (stringScalars environment.toJson).all (fun s => !(s.data.isEmpty)) = true ∧
    nonStringTopFields environment.toJson =
      [("production", ScalarType.boolean)] ∧
    nestedNonStringFields environment.toJson = [] := by decide

/-- Claim C4: `apiServerUrl` and `auth0.callbackURL` are syntactically valid
absolute URLs — each parses with a scheme and a host. -/
theorem apiServerUrl_callbackURL_valid_urls :
    isAbsoluteUrl environment.apiServerUrl = true ∧
    isAbsoluteUrl environment.auth0.callbackURL = true := by decide

/-- Claim C5: serializing the configuration record to JSON and deserializing
the result yields the original record; this holds for every record of the
configuration type, in particular for `environment`. -/
theorem toJson_fromJson_roundTrip (e : Environment) :
    Environment.fromJson e.toJson = some e := by
  cases e with
  | mk p api a => cases a; rfl

/-- Claim C6: after module load the record is only ever read, never mutated:
after any sequence of interface operations the record equals the record at
module load, and any field read yields the value it had at module load. -/
theorem environment_never_mutated (ops : List ReadOp) (op : ReadOp) :
    runReads environment ops = environment ∧
    readField (runReads environment ops) op = readField environment op := by
  refine ⟨runReads_eq environment ops, ?_⟩
  rw [runReads_eq]

/-- Claim C7: every record of the environment-configuration type has exactly
the same shape — the same field names and field types — as the exported
record; records may differ only in their field values. -/
theorem shape_constant_across_values (e : Environment) :
    shapeOf e.toJson = shapeOf environment.toJson := rfl

/-- Claim C8: reading the module's declared fields is total: looking up each
declared top-level field of the record succeeds, and so does looking up each
declared field of its nested `auth0` record. -/
theorem field_reads_total :
    (["production", "apiServerUrl", "auth0"].all
      (fun n => (List.lookup n environment.toJson).isSome)) = true ∧
    (["url", "audience", "clientId", "callbackURL"].all
      (fun n =>
        match List.lookup "auth0" environment.toJson with
        | some (JField.obj fs) => (List.lookup n fs).isSome
        | _ => false)) = true := by decide

/-- Claim C9: this is a development configuration: `production` is `false`,
and both `apiServerUrl` and `auth0.callbackURL` use the plain `http` scheme
with loopback/local hosts (`127.0.0.1` and `localhost`). -/
theorem development_configuration :
    environment.production = false ∧
    urlScheme environment.apiServerUrl = some "http" ∧
    urlScheme environment.auth0.callbackURL = some "http" ∧
    urlHost environment.apiServerUrl = some "127.0.0.1" ∧
    urlHost environment.auth0.callbackURL = some "localhost" ∧
    isLoopbackOrLocalHost "127.0.0.1" = true ∧
    isLoopbackOrLocalHost "localhost" = true := by decide

/-- Claim C10: `auth0.url` is a bare domain prefix — it contains no scheme
separator and no path separator and does not parse as an absolute URL —
while among all string fields only `apiServerUrl` and `auth0.callbackURL`
are full absolute URLs. -/
theorem auth0_url_bare_domain :
    isAbsoluteUrl environment.auth0.url = false ∧
    environment.auth0.url.data.contains ':' = false ∧
    environment.auth0.url.data.contains '/' = false ∧
    isAbsoluteUrl environment.apiServerUrl = true ∧
    isAbsoluteUrl environment.auth0.callbackURL = true ∧
    isAbsoluteUrl environment.auth0.audience = false ∧
    isAbsoluteUrl environment.auth0.clientId = false := by decide

end CoffeeShopEnv
